import Mathlib

/-!
Verification of the course-filtering service (`app/utils/course_service.py`
together with the lookup tables of `settings.py`).

The embedding is shallow:

* a Python `set` of user-chosen values is modelled as a `List` recording the
  set's iteration order (Python set iteration order is unspecified but fixed
  during one iteration; every property proved below is stated for every
  order);
* a course record (a Python dict) is a structure of optional fields, `none`
  modelling an absent key, so that `course.get(k, default)` becomes
  `Option.getD`;
* a Python dict used as a finite map is an association list in insertion
  order; `d.get(k)` reads the most recently inserted binding (`pyGet`);
* exceptions are modelled with `Except`: the remote client (external
  collaborator, not under version control here) is an oracle whose two
  operations either return data or fail with a distinguishable error kind.
-/

namespace CourseServiceProof

/-- A user-supplied grade value: grade sets may mix numeric strings and
integers (`"9"` and `9`). -/
inductive GVal where
  | str (s : String)
  | int (n : Int)
deriving DecidableEq, Repr

/-- A value stored in the API-parameters mapping (`category_id` and
`grade_id` are integers, `level` is a string code). -/
inductive APIVal where
  | int (n : Int)
  | str (s : String)
deriving DecidableEq, Repr

/-- The filter bag: one optional set of user-chosen values per dimension.
An empty list models both an absent key and an empty set, which the source
treats identically (`filters.get(dim)` is falsy in both cases). The list
order is the set's iteration order. -/
structure FilterBag where
  subjects : List String := []
  difficulty : List String := []
  grade : List GVal := []
deriving DecidableEq, Repr

/-- A course record: a dict with optional fields, `none` for an absent key.
`course.get("subjects", [])` becomes `c.subjects.getD []`, and so on. -/
structure Course where
  id : Option Int := none
  subjects : Option (List String) := none
  difficulty : Option String := none
  grade : Option (List Int) := none
deriving DecidableEq, Repr

/-- Python dict read `d.get(k)` on an association list in insertion order:
the most recently inserted binding for `k` wins. -/
def pyGet {α β : Type} [BEq α] (l : List (α × β)) (k : α) : Option β :=
  (l.reverse.find? (fun p => p.1 == k)).map (fun p => p.2)

/-- Lookup table `SUBJECT_TO_CATEGORY` of `settings.py`. -/
def SUBJECT_TO_CATEGORY : List (String × Int) :=
  [("Искусственный интеллект", 1),
   ("Программирование", 2),
   ("Информационная безопасность", 3),
   ("Робототехника", 4),
   ("Предпринимательство", 5),
   ("Финансовая грамотность", 6),
   ("Наука", 7)]

/-- Lookup table `DIFFICULTY_TO_LEVEL` of `settings.py`. -/
def DIFFICULTY_TO_LEVEL : List (String × String) :=
  [("Начальный", "BEGINNER"),
   ("Средний", "INTERMEDIATE"),
   ("Продвинутый", "ADVANCED")]

/-- Lookup table `GRADE_TO_ID` of `settings.py`. -/
def GRADE_TO_ID : List (Int × Int) :=
  [(7, 1), (8, 2), (9, 3), (10, 4), (11, 5)]

/-- Python `str.isdigit` on ASCII data: the string is non-empty and every
character is a decimal digit (so `"-5"` and `""` are not digit-strings). -/
def pyIsDigit (s : String) : Bool :=
  !s.data.isEmpty && s.data.all Char.isDigit

/-- Python `int(...)` on a digit-only string: the base-10 value of its
digits. -/
def pyIntOfDigits (s : String) : Int :=
  Int.ofNat (s.data.foldl (fun acc c => 10 * acc + (c.toNat - 48)) 0)

/-- Grade normalization, shared by translator and evaluator:
`isinstance(grade, str) and grade.isdigit()` followed by `int(grade)` maps a
digit-only string to its integer; an integer stays itself; anything else
(e.g. a non-digit string such as `"abc"` or `"-5"`) has no normal form. -/
def normGrade : GVal → Option Int
  | .str s => if pyIsDigit s then some (pyIntOfDigits s) else none
  | .int n => some n

/-! Translator `CourseService._convert_filters_to_api_params`
(course_service.py lines 27-68). Each dimension is a `for ... break` loop:
take the first member found in the lookup table, skip the rest. -/

/-- Loop body for the subjects dimension (lines 43-46). -/
def subjLoop : List String → List (String × APIVal)
  | [] => []
  | s :: rest =>
    match pyGet SUBJECT_TO_CATEGORY s with
    | some v => [("category_id", APIVal.int v)]
    | none => subjLoop rest

/-- Loop body for the difficulty dimension (lines 52-55). -/
def diffLoop : List String → List (String × APIVal)
  | [] => []
  | d :: rest =>
    match pyGet DIFFICULTY_TO_LEVEL d with
    | some v => [("level", APIVal.str v)]
    | none => diffLoop rest

/-- Loop body for the grade dimension (lines 61-66): a digit-string is first
normalized to an integer; a value (after normalization) that is not a key of
`GRADE_TO_ID` is skipped. A non-digit string is never a key (the table's
keys are integers). -/
def gradeLoop : List GVal → List (String × APIVal)
  | [] => []
  | g :: rest =>
    match normGrade g with
    | some n =>
      match pyGet GRADE_TO_ID n with
      | some v => [("grade_id", APIVal.int v)]
      | none => gradeLoop rest
    | none => gradeLoop rest

/-- `CourseService._convert_filters_to_api_params` (lines 27-68): builds the
`api_params` dict. The three dimensions write distinct keys, each at most
once, so the dict is the concatenation of the three loop results. -/
def convertFiltersToApiParams (f : FilterBag) : List (String × APIVal) :=
  (if f.subjects.isEmpty then [] else subjLoop f.subjects)
    ++ (if f.difficulty.isEmpty then [] else diffLoop f.difficulty)
    ++ (if f.grade.isEmpty then [] else gradeLoop f.grade)

/-! Local evaluator `CourseService._filter_courses_locally`
(course_service.py lines 70-124). -/

/-- Subjects predicate (lines 88-94): defaults to true on an empty/absent
dimension, else some user-selected subject is a member of the candidate's
subject list (which defaults to `[]` when the field is absent). -/
def subjectsMatchB (f : FilterBag) (c : Course) : Bool :=
  if f.subjects.isEmpty then true
  else f.subjects.any (fun s => (c.subjects.getD []).contains s)

/-- The inverse difficulty dict built at line 101:
`{v: k for k, v in DIFFICULTY_TO_LEVEL.items()}` (later bindings would
overwrite earlier ones; `pyGet` realizes that). -/
def invDifficulty : List (String × String) :=
  DIFFICULTY_TO_LEVEL.map (fun p => (p.2, p.1))

/-- Difficulty predicate (lines 97-103): the candidate's API-coded
difficulty (defaulting to `""` when absent) is mapped back through the
inverse table, falling back to the raw value, and must be a member of the
user's difficulty set. -/
def difficultyMatchB (f : FilterBag) (c : Course) : Bool :=
  if f.difficulty.isEmpty then true
  else
    let cd := c.difficulty.getD ""
    let bd := (pyGet invDifficulty cd).getD cd
    f.difficulty.contains bd

/-- The `user_grades` set built at lines 109-114: normalize each member,
dropping values with no normal form. A Python set deduplicates and is
unordered, but the predicate only takes `any` over it, which is insensitive
to order and duplicates, so a list in iteration order is a faithful model. -/
def userGrades (gs : List GVal) : List Int :=
  gs.foldl (fun acc g =>
    match normGrade g with
    | some n => acc ++ [n]
    | none => acc) []

/-- Grade predicate (lines 106-119): some normalized user grade is a member
of the candidate's grade list (which defaults to `[]` when absent). -/
def gradeMatchB (f : FilterBag) (c : Course) : Bool :=
  if f.grade.isEmpty then true
  else (userGrades f.grade).any (fun g => (c.grade.getD []).contains g)

/-- The conjunction tested at line 121. -/
def keepCourse (f : FilterBag) (c : Course) : Bool :=
  subjectsMatchB f c && difficultyMatchB f c && gradeMatchB f c

/-- The accumulation loop of lines 86-122: append each surviving course to
`results`. -/
def filterLoop (f : FilterBag) : List Course → List Course → List Course
  | results, [] => results
  | results, c :: rest =>
    filterLoop f (if keepCourse f c then results ++ [c] else results) rest

/-- `CourseService._filter_courses_locally` (lines 70-124): short-circuit on
an empty input, else run the accumulation loop. -/
def filterCoursesLocally (courses : List Course) (f : FilterBag) : List Course :=
  if courses.isEmpty then []
  else filterLoop f [] courses

/-! Service layer: `CourseService` orchestration (course_service.py lines
126-214). The remote client `api.client.CourseAPIClient` and the error class
`APIError` are external collaborators whose implementation is not under
version control here; they are modelled as an oracle. The mock dataset
`data.mock_courses.COURSES` is likewise external; `none` models the
`ImportError` branch of `_get_fallback_courses`. -/

/-- An exception escaping a remote call: the source distinguishes `APIError`
from every other exception (lines 181-188), but both branches behave
identically. -/
inductive PyErr where
  | apiError
  | otherError
deriving DecidableEq, Repr

/-- Modelled from the spec: the envelope returned by the remote "list
courses matching parameters" operation, a dict whose `courses` key holds the
record list; an absent key makes the subscript `result['courses']` at line
169 raise, which the model renders as an `otherError`. -/
structure CoursesResult where
  courses : Option (List Course)

/-- Modelled from the spec: the remote API collaborator (`api/client.py`,
outside the sources given here), with its two operations "list courses
matching parameters" and "list all courses", each either returning data or
failing with a distinguishable error kind. -/
structure CourseAPIClient where
  get_courses : List (String × APIVal) → Except PyErr CoursesResult
  get_all_courses : Except PyErr (List Course)

/-- The service state after `__init__` (lines 12-21): `api_client` is `none`
when initialization failed (Degraded mode), and `mock_courses` is the static
fallback dataset, `none` when `data.mock_courses` cannot be imported. -/
structure CourseService where
  api_client : Option CourseAPIClient
  mock_courses : Option (List Course)

/-- `CourseService._get_fallback_courses` (lines 126-142): load the mock
dataset and apply the local evaluator; on `ImportError` return `[]`. -/
def getFallbackCourses (svc : CourseService) (f : FilterBag) : List Course :=
  match svc.mock_courses with
  | some cs => filterCoursesLocally cs f
  | none => []

/-- The fetch step of `filter_courses` (lines 161-172): translate the
filters; with non-empty parameters call `get_courses` and read the
`courses` key of the envelope, otherwise call `get_all_courses`. -/
def fetchCourses (client : CourseAPIClient) (f : FilterBag) : Except PyErr (List Course) :=
  let api_params := convertFiltersToApiParams f
  if api_params.isEmpty then client.get_all_courses
  else
    match client.get_courses api_params with
    | Except.ok r =>
      match r.courses with
      | some cs => Except.ok cs
      | none => Except.error PyErr.otherError
    | Except.error e => Except.error e

/-- `CourseService.filter_courses` (lines 144-188): fallback immediately in
Degraded mode; else fetch, filter locally, and on any exception (APIError or
other) return the fallback result instead of propagating. -/
def filter_courses (svc : CourseService) (f : FilterBag) : List Course :=
  match svc.api_client with
  | none => getFallbackCourses svc f
  | some client =>
    match fetchCourses client f with
    | Except.ok courses => filterCoursesLocally courses f
    | Except.error _ => getFallbackCourses svc f

/-- The linear scan of lines 208-211: first record whose `id` field equals
`course_id` (an absent `id` field reads as `None`, which never equals the
integer argument). -/
def findCourseById (cid : Int) : List Course → Option Course
  | [] => none
  | c :: rest => if c.id == some cid then some c else findCourseById cid rest

/-- `CourseService.get_course_by_id` (lines 190-214): `none` in Degraded
mode (no fallback lookup); else fetch all courses and scan, with any
exception caught and turned into `none`. -/
def get_course_by_id (svc : CourseService) (cid : Int) : Option Course :=
  match svc.api_client with
  | none => none
  | some client =>
    match client.get_all_courses with
    | Except.ok cs => findCourseById cid cs
    | Except.error _ => none

/-! State-threading variants for the frame property. Python passes `filters`
(and the course dicts) by reference; a mutation would be a write through
that reference. The loops below thread the bag (and the candidate list)
through every step exactly as the source statements touch them — the source
contains only reads, so the embedding of each statement leaves the state
component untouched, and the frame theorem makes that explicit. -/

/-- Subjects loop of the translator, threading the filter bag. -/
def subjLoopS : List String → FilterBag → List (String × APIVal) × FilterBag
  | [], f => ([], f)
  | s :: rest, f =>
    match pyGet SUBJECT_TO_CATEGORY s with
    | some v => ([("category_id", APIVal.int v)], f)
    | none => subjLoopS rest f

/-- Difficulty loop of the translator, threading the filter bag. -/
def diffLoopS : List String → FilterBag → List (String × APIVal) × FilterBag
  | [], f => ([], f)
  | d :: rest, f =>
    match pyGet DIFFICULTY_TO_LEVEL d with
    | some v => ([("level", APIVal.str v)], f)
    | none => diffLoopS rest f

/-- Grade loop of the translator, threading the filter bag. -/
def gradeLoopS : List GVal → FilterBag → List (String × APIVal) × FilterBag
  | [], f => ([], f)
  | g :: rest, f =>
    match normGrade g with
    | some n =>
      match pyGet GRADE_TO_ID n with
      | some v => ([("grade_id", APIVal.int v)], f)
      | none => gradeLoopS rest f
    | none => gradeLoopS rest f

/-- `_convert_filters_to_api_params` as a state transformer on the filter
bag: each dimension reads the bag it is handed and hands the bag on. -/
def convertFiltersToApiParamsS (f : FilterBag) : List (String × APIVal) × FilterBag :=
  let (p1, f1) := if f.subjects.isEmpty then ([], f) else subjLoopS f.subjects f
  let (p2, f2) := if f1.difficulty.isEmpty then ([], f1) else diffLoopS f1.difficulty f1
  let (p3, f3) := if f2.grade.isEmpty then ([], f2) else gradeLoopS f2.grade f2
  (p1 ++ p2 ++ p3, f3)

/-- The evaluator's loop as a state transformer on the filter bag and the
remaining candidate list: every iteration reads the bag and the current
record and appends the record (unchanged) when it survives. Returns the
results together with the final bag. -/
def filterLoopS (results : List Course) : List Course → FilterBag → List Course × FilterBag
  | [], f => (results, f)
  | c :: rest, f =>
    filterLoopS (if keepCourse f c then results ++ [c] else results) rest f

/-- `_filter_courses_locally` as a state transformer on the filter bag. -/
def filterCoursesLocallyS (courses : List Course) (f : FilterBag) : List Course × FilterBag :=
  if courses.isEmpty then ([], f)
  else filterLoopS [] courses f

/-! Helper lemmas. -/

theorem filterLoop_eq_filter (f : FilterBag) :
    ∀ (cs acc : List Course), filterLoop f acc cs = acc ++ cs.filter (keepCourse f) := by
  intro cs
  induction cs with
  | nil => intro acc; simp [filterLoop]
  | cons c rest ih =>
    intro acc
    by_cases h : keepCourse f c = true
    · simp [filterLoop, h, ih, List.filter_cons]
    · simp only [Bool.not_eq_true] at h
      simp [filterLoop, h, ih, List.filter_cons]

theorem filterCoursesLocally_eq_filter (cs : List Course) (f : FilterBag) :
    filterCoursesLocally cs f = cs.filter (keepCourse f) := by
  cases cs with
  | nil => simp [filterCoursesLocally]
  | cons c rest => simp [filterCoursesLocally, filterLoop_eq_filter]

theorem userGrades_eq_filterMap (gs : List GVal) : userGrades gs = gs.filterMap normGrade := by
  have h : ∀ (l : List GVal) (acc : List Int),
      List.foldl (fun acc g =>
        match normGrade g with
        | some n => acc ++ [n]
        | none => acc) acc l = acc ++ l.filterMap normGrade := by
    intro l
    induction l with
    | nil => intro acc; simp
    | cons g rest ih =>
      intro acc
      cases hg : normGrade g <;> simp [List.filterMap_cons, hg, ih]
  simpa [userGrades] using h gs []

theorem keepCourse_not_mem (f : FilterBag) (c : Course) (cs : List Course)
    (h : keepCourse f c = false) : c ∉ filterCoursesLocally cs f := by
  rw [filterCoursesLocally_eq_filter]
  intro hmem
  have := List.of_mem_filter hmem
  rw [h] at this
  exact Bool.false_ne_true this

theorem subjectsMatchB_iff (f : FilterBag) (c : Course) :
    subjectsMatchB f c = true ↔
      (f.subjects ≠ [] → ∃ s ∈ f.subjects, s ∈ c.subjects.getD []) := by
  unfold subjectsMatchB
  cases hs : f.subjects with
  | nil => simp
  | cons a l => simp [List.any_eq_true]

theorem difficultyMatchB_iff (f : FilterBag) (c : Course) :
    difficultyMatchB f c = true ↔
      (f.difficulty ≠ [] →
        (pyGet invDifficulty (c.difficulty.getD "")).getD (c.difficulty.getD "")
          ∈ f.difficulty) := by
  unfold difficultyMatchB
  cases hd : f.difficulty with
  | nil => simp
  | cons a l => simp

theorem gradeMatchB_iff (f : FilterBag) (c : Course) :
    gradeMatchB f c = true ↔
      (f.grade ≠ [] →
        ∃ g ∈ f.grade, ∃ n : Int, normGrade g = some n ∧ n ∈ c.grade.getD []) := by
  unfold gradeMatchB
  cases hg : f.grade with
  | nil => simp
  | cons a l =>
    rw [userGrades_eq_filterMap]
    simp only [List.isEmpty_cons, Bool.false_eq_true, if_false, ne_eq,
      reduceCtorEq, not_false_iff, forall_const, List.any_eq_true,
      List.mem_filterMap, List.elem_iff]
    constructor
    · rintro ⟨n, ⟨g, hg1, hg2⟩, hn⟩
      exact ⟨g, hg1, n, hg2, hn⟩
    · rintro ⟨g, hg1, n, hg2, hn⟩
      exact ⟨n, ⟨g, hg1, hg2⟩, hn⟩

/-! Claim-side characterization of the translator: the emitted value per
dimension is the table image of the first member of the set (in iteration
order) that is a key of the table. -/

/-- Stated from the claim: the subject parameter is the category of the
first user subject found in `SUBJECT_TO_CATEGORY`, if any. -/
def specSubjectParam (l : List String) : Option Int :=
  (l.find? (fun s => (pyGet SUBJECT_TO_CATEGORY s).isSome)).bind (pyGet SUBJECT_TO_CATEGORY)

/-- Stated from the claim: the level parameter is the code of the first
user difficulty found in `DIFFICULTY_TO_LEVEL`, if any. -/
def specDifficultyParam (l : List String) : Option String :=
  (l.find? (fun d => (pyGet DIFFICULTY_TO_LEVEL d).isSome)).bind (pyGet DIFFICULTY_TO_LEVEL)

/-- Stated from the claim: the grade parameter is the id of the first user
grade whose normalized integer form is a key of `GRADE_TO_ID`, if any. -/
def specGradeParam (l : List GVal) : Option Int :=
  (l.find? (fun g => ((normGrade g).bind (pyGet GRADE_TO_ID)).isSome)).bind
    (fun g => (normGrade g).bind (pyGet GRADE_TO_ID))

/-- Zero or one dict entry from an optional translated value. -/
def optParam {α : Type} (k : String) (inj : α → APIVal) : Option α → List (String × APIVal)
  | some v => [(k, inj v)]
  | none => []

theorem subjLoop_eq_spec (l : List String) :
    subjLoop l = optParam "category_id" APIVal.int (specSubjectParam l) := by
  induction l with
  | nil => simp [subjLoop, specSubjectParam, optParam]
  | cons s rest ih =>
    cases h : pyGet SUBJECT_TO_CATEGORY s with
    | some v => simp [subjLoop, specSubjectParam, List.find?_cons, h, optParam]
    | none =>
      simp only [subjLoop, h, ih]
      simp [specSubjectParam, List.find?_cons, h]

theorem diffLoop_eq_spec (l : List String) :
    diffLoop l = optParam "level" APIVal.str (specDifficultyParam l) := by
  induction l with
  | nil => simp [diffLoop, specDifficultyParam, optParam]
  | cons d rest ih =>
    cases h : pyGet DIFFICULTY_TO_LEVEL d with
    | some v => simp [diffLoop, specDifficultyParam, List.find?_cons, h, optParam]
    | none =>
      simp only [diffLoop, h, ih]
      simp [specDifficultyParam, List.find?_cons, h]

theorem gradeLoop_eq_spec (l : List GVal) :
    gradeLoop l = optParam "grade_id" APIVal.int (specGradeParam l) := by
  induction l with
  | nil => simp [gradeLoop, specGradeParam, optParam]
  | cons g rest ih =>
    cases hn : normGrade g with
    | some n =>
      cases h : pyGet GRADE_TO_ID n with
      | some v => simp [gradeLoop, specGradeParam, List.find?_cons, hn, h, optParam]
      | none =>
        simp only [gradeLoop, hn, h, ih]
        simp [specGradeParam, List.find?_cons, hn, h]
    | none =>
      simp only [gradeLoop, hn, ih]
      simp [specGradeParam, List.find?_cons, hn]

theorem if_isEmpty_subjLoop (l : List String) :
    (if l.isEmpty then [] else subjLoop l) = subjLoop l := by
  cases l <;> simp [subjLoop]

theorem if_isEmpty_diffLoop (l : List String) :
    (if l.isEmpty then [] else diffLoop l) = diffLoop l := by
  cases l <;> simp [diffLoop]

theorem if_isEmpty_gradeLoop (l : List GVal) :
    (if l.isEmpty then [] else gradeLoop l) = gradeLoop l := by
  cases l <;> simp [gradeLoop]

theorem convert_eq_spec (f : FilterBag) :
    convertFiltersToApiParams f
      = optParam "category_id" APIVal.int (specSubjectParam f.subjects)
        ++ optParam "level" APIVal.str (specDifficultyParam f.difficulty)
        ++ optParam "grade_id" APIVal.int (specGradeParam f.grade) := by
  unfold convertFiltersToApiParams
  rw [if_isEmpty_subjLoop, if_isEmpty_diffLoop, if_isEmpty_gradeLoop,
    subjLoop_eq_spec, diffLoop_eq_spec, gradeLoop_eq_spec]

theorem countP_three_params (k : String) (o1 : Option Int) (o2 : Option String)
    (o3 : Option Int) :
    ((optParam "category_id" APIVal.int o1 ++ optParam "level" APIVal.str o2
        ++ optParam "grade_id" APIVal.int o3).countP (fun p => p.1 == k)) ≤ 1 := by
  have hn : ((optParam "category_id" APIVal.int o1 ++ optParam "level" APIVal.str o2
      ++ optParam "grade_id" APIVal.int o3).map Prod.fst).Nodup := by
    rcases o1 with _ | v1 <;> rcases o2 with _ | v2 <;> rcases o3 with _ | v3 <;>
      simp [optParam]
  have hc : ((optParam "category_id" APIVal.int o1 ++ optParam "level" APIVal.str o2
        ++ optParam "grade_id" APIVal.int o3).countP (fun p => p.1 == k))
      = (((optParam "category_id" APIVal.int o1 ++ optParam "level" APIVal.str o2
        ++ optParam "grade_id" APIVal.int o3).map Prod.fst).count k) := by
    rw [List.count, List.countP_map]
    rfl
  rw [hc]
  exact List.nodup_iff_count_le_one.mp hn k

/-! Helper lemmas for grade-form interchangeability. -/

theorem forall₂_normGrade_isEmpty {g g' : List GVal}
    (h : List.Forall₂ (fun a b => normGrade a = normGrade b) g g') :
    g.isEmpty = g'.isEmpty := by
  cases h <;> rfl

theorem filterMap_normGrade_congr {g g' : List GVal}
    (h : List.Forall₂ (fun a b => normGrade a = normGrade b) g g') :
    g.filterMap normGrade = g'.filterMap normGrade := by
  induction h with
  | nil => rfl
  | cons hab _ ih => rw [List.filterMap_cons, List.filterMap_cons, hab, ih]

theorem gradeLoop_congr {g g' : List GVal}
    (h : List.Forall₂ (fun a b => normGrade a = normGrade b) g g') :
    gradeLoop g = gradeLoop g' := by
  induction h with
  | nil => rfl
  | cons hab _ ih =>
    rename_i a b as bs hrest
    cases hn : normGrade b with
    | some n => simp [gradeLoop, hab, hn, ih]
    | none => simp [gradeLoop, hab, hn, ih]

/-! Helper lemmas for the state-threading variants. -/

theorem subjLoopS_eq (l : List String) (f : FilterBag) :
    subjLoopS l f = (subjLoop l, f) := by
  induction l with
  | nil => rfl
  | cons s rest ih =>
    cases h : pyGet SUBJECT_TO_CATEGORY s <;> simp [subjLoopS, subjLoop, h, ih]

theorem diffLoopS_eq (l : List String) (f : FilterBag) :
    diffLoopS l f = (diffLoop l, f) := by
  induction l with
  | nil => rfl
  | cons d rest ih =>
    cases h : pyGet DIFFICULTY_TO_LEVEL d <;> simp [diffLoopS, diffLoop, h, ih]

theorem gradeLoopS_eq (l : List GVal) (f : FilterBag) :
    gradeLoopS l f = (gradeLoop l, f) := by
  induction l with
  | nil => rfl
  | cons g rest ih =>
    cases hn : normGrade g with
    | some n =>
      cases h : pyGet GRADE_TO_ID n <;> simp [gradeLoopS, gradeLoop, hn, h, ih]
    | none => simp [gradeLoopS, gradeLoop, hn, ih]

theorem filterLoopS_eq (f : FilterBag) :
    ∀ (rest acc : List Course), filterLoopS acc rest f = (filterLoop f acc rest, f) := by
  intro rest
  induction rest with
  | nil => intro acc; rfl
  | cons c cs ih => intro acc; simp [filterLoopS, filterLoop, ih]

theorem convertS_eq (f : FilterBag) :
    convertFiltersToApiParamsS f = (convertFiltersToApiParams f, f) := by
  unfold convertFiltersToApiParamsS convertFiltersToApiParams
  by_cases h1 : f.subjects.isEmpty <;> by_cases h2 : f.difficulty.isEmpty <;>
    by_cases h3 : f.grade.isEmpty <;>
      simp [h1, h2, h3, subjLoopS_eq, diffLoopS_eq, gradeLoopS_eq]

theorem filterLocallyS_eq (cs : List Course) (f : FilterBag) :
    filterCoursesLocallyS cs f = (filterCoursesLocally cs f, f) := by
  unfold filterCoursesLocallyS filterCoursesLocally
  by_cases h : cs.isEmpty <;> simp [h, filterLoopS_eq]

/-! Helper lemma for the id scan. -/

theorem findCourseById_eq_find (cid : Int) (cs : List Course) :
    findCourseById cid cs = cs.find? (fun c => c.id == some cid) := by
  induction cs with
  | nil => rfl
  | cons c rest ih =>
    by_cases h : (c.id == some cid) = true <;>
      simp [findCourseById, List.find?_cons, h, ih]

/-! Claim theorems. -/

/-- C1: the local evaluator (`_filter_courses_locally`) returns exactly the
input candidates, in input order, for which all three predicates hold —
subject membership, inverse-mapped difficulty membership (falling back to
the raw API value), normalized grade intersection — each predicate
defaulting to true on an absent or empty dimension, and an empty input list
yields an empty output list. -/
theorem local_evaluator_exact (cs : List Course) (f : FilterBag) :
    filterCoursesLocally cs f = cs.filter (keepCourse f)
    ∧ (∀ c : Course, keepCourse f c = true ↔
        ((f.subjects ≠ [] → ∃ s ∈ f.subjects, s ∈ c.subjects.getD [])
          ∧ (f.difficulty ≠ [] →
              (pyGet invDifficulty (c.difficulty.getD "")).getD (c.difficulty.getD "")
                ∈ f.difficulty)
          ∧ (f.grade ≠ [] →
              ∃ g ∈ f.grade, ∃ n : Int, normGrade g = some n ∧ n ∈ c.grade.getD [])))
    ∧ filterCoursesLocally [] f = [] := by
  refine ⟨filterCoursesLocally_eq_filter cs f, ?_, by simp [filterCoursesLocally]⟩
  intro c
  rw [keepCourse, Bool.and_eq_true, Bool.and_eq_true,
    subjectsMatchB_iff, difficultyMatchB_iff, gradeMatchB_iff]
  tauto

theorem local_evaluator_exact_witness :
    filterCoursesLocally [⟨some 1, some ["Наука"], none, none⟩] { subjects := ["Наука"] }
      = [⟨some 1, some ["Наука"], none, none⟩].filter
          (keepCourse { subjects := ["Наука"] }) :=
  (local_evaluator_exact _ _).1

/-- C4: the translator (`_convert_filters_to_api_params`) emits, per
dimension, the lookup image of the first set member found in the table
(grade digit-strings normalized first), skipping members outside the table,
emits nothing for an absent/empty/all-unknown dimension, and never produces
two values for the same dimension. -/
theorem translator_one_param_per_dimension (f : FilterBag) :
    convertFiltersToApiParams f
      = optParam "category_id" APIVal.int (specSubjectParam f.subjects)
        ++ optParam "level" APIVal.str (specDifficultyParam f.difficulty)
        ++ optParam "grade_id" APIVal.int (specGradeParam f.grade)
    ∧ ∀ k : String, ((convertFiltersToApiParams f).countP (fun p => p.1 == k)) ≤ 1 := by
  refine ⟨convert_eq_spec f, ?_⟩
  intro k
  rw [convert_eq_spec f]
  exact countP_three_params k _ _ _

theorem translator_one_param_per_dimension_witness :
    convertFiltersToApiParams { subjects := ["нет", "Наука"], grade := [GVal.str "9"] }
      = optParam "category_id" APIVal.int (specSubjectParam ["нет", "Наука"])
        ++ optParam "level" APIVal.str (specDifficultyParam [])
        ++ optParam "grade_id" APIVal.int (specGradeParam [GVal.str "9"]) :=
  (translator_one_param_per_dimension _).1

/-- C7: a filter bag whose three dimensions are all empty (or absent)
translates to an empty parameters mapping, and the evaluator is the
identity on every candidate list under it. -/
theorem empty_filters_identity (f : FilterBag) (cs : List Course)
    (hs : f.subjects = []) (hd : f.difficulty = []) (hg : f.grade = []) :
    convertFiltersToApiParams f = [] ∧ filterCoursesLocally cs f = cs := by
  constructor
  · simp [convertFiltersToApiParams, hs, hd, hg]
  · rw [filterCoursesLocally_eq_filter]
    apply List.filter_eq_self.mpr
    intro c _
    simp [keepCourse, subjectsMatchB, difficultyMatchB, gradeMatchB, hs, hd, hg]

theorem empty_filters_identity_witness :
    convertFiltersToApiParams {} = []
      ∧ filterCoursesLocally [⟨some 2, none, none, none⟩] {}
          = [⟨some 2, none, none, none⟩] :=
  empty_filters_identity {} _ rfl rfl rfl

/-- C9: a non-empty grade set none of whose members normalizes (no integer
and no digit-only string) yields an empty normalized user-grade set, makes
the grade predicate false for every candidate instead of defaulting to
true, and so the evaluator returns the empty list. -/
theorem unnormalizable_grades_reject_all (cs : List Course) (f : FilterBag)
    (hne : f.grade ≠ []) (hall : ∀ g ∈ f.grade, normGrade g = none) :
    userGrades f.grade = []
    ∧ (∀ c : Course, gradeMatchB f c = false)
    ∧ filterCoursesLocally cs f = [] := by
  have hug : userGrades f.grade = [] := by
    rw [userGrades_eq_filterMap]
    exact List.filterMap_eq_nil_iff.mpr hall
  have hie : f.grade.isEmpty = false := by
    cases hgr : f.grade with
    | nil => exact absurd hgr hne
    | cons a l => rfl
  have hgm : ∀ c : Course, gradeMatchB f c = false := by
    intro c
    simp [gradeMatchB, hie, hug]
  refine ⟨hug, hgm, ?_⟩
  rw [filterCoursesLocally_eq_filter]
  apply List.filter_eq_nil_iff.mpr
  intro c _
  simp [keepCourse, hgm c]

theorem unnormalizable_grades_reject_all_witness :
    userGrades [GVal.str "abc", GVal.str "-5"] = []
    ∧ (∀ c : Course, gradeMatchB { grade := [GVal.str "abc", GVal.str "-5"] } c = false)
    ∧ filterCoursesLocally [⟨some 1, none, none, some [9]⟩]
        { grade := [GVal.str "abc", GVal.str "-5"] } = [] :=
  unnormalizable_grades_reject_all [⟨some 1, none, none, some [9]⟩]
    { grade := [GVal.str "abc", GVal.str "-5"] } (by simp) (by decide)

/-- C10: under a non-empty subjects (resp. grade) filter, a candidate
lacking that field is rejected, since the field defaults to an empty list;
a candidate lacking the difficulty field defaults to the empty string and,
under a non-empty difficulty filter, matches exactly when the empty string
is itself a selected value, so it is rejected whenever it is not. -/
theorem missing_fields_reject (f : FilterBag) (c : Course) (cs : List Course) :
    (f.subjects ≠ [] → c.subjects = none → c ∉ filterCoursesLocally cs f)
    ∧ (f.grade ≠ [] → c.grade = none → c ∉ filterCoursesLocally cs f)
    ∧ (f.difficulty ≠ [] → c.difficulty = none →
        difficultyMatchB f c = f.difficulty.contains ""
        ∧ (f.difficulty.contains "" = false → c ∉ filterCoursesLocally cs f)) := by
  have hpy : pyGet invDifficulty "" = none := by decide
  refine ⟨?_, ?_, ?_⟩
  · intro hne hnone
    apply keepCourse_not_mem
    have hie : f.subjects.isEmpty = false := by
      cases hgr : f.subjects with
      | nil => exact absurd hgr hne
      | cons a l => rfl
    simp [keepCourse, subjectsMatchB, hie, hnone]
  · intro hne hnone
    apply keepCourse_not_mem
    have hie : f.grade.isEmpty = false := by
      cases hgr : f.grade with
      | nil => exact absurd hgr hne
      | cons a l => rfl
    simp [keepCourse, gradeMatchB, hie, hnone]
  · intro hne hnone
    have hie : f.difficulty.isEmpty = false := by
      cases hgr : f.difficulty with
      | nil => exact absurd hgr hne
      | cons a l => rfl
    have hdm : difficultyMatchB f c = f.difficulty.contains "" := by
      simp [difficultyMatchB, hie, hnone, hpy]
    refine ⟨hdm, ?_⟩
    intro hnot
    apply keepCourse_not_mem
    have hfalse : difficultyMatchB f c = false := by rw [hdm, hnot]
    simp [keepCourse, hfalse]

theorem missing_fields_reject_witness :
    (⟨some 3, none, none, none⟩ : Course)
      ∉ filterCoursesLocally [⟨some 3, none, none, none⟩] { subjects := ["Наука"] } :=
  (missing_fields_reject { subjects := ["Наука"] } _ _).1 (by simp) rfl

/-- C6: grade values given as a digit-string and as the corresponding
integer are treated identically: replacing grade-set members by members
with the same normalized value (such as the string `"9"` by the integer
`9`, or vice versa) leaves the evaluator's result unchanged and makes the
translator emit the same parameters. -/
theorem grade_forms_interchangeable (f : FilterBag) (cs : List Course)
    (g g' : List GVal)
    (h : List.Forall₂ (fun a b => normGrade a = normGrade b) g g') :
    filterCoursesLocally cs { f with grade := g }
      = filterCoursesLocally cs { f with grade := g' }
    ∧ convertFiltersToApiParams { f with grade := g }
      = convertFiltersToApiParams { f with grade := g' } := by
  have hie := forall₂_normGrade_isEmpty h
  have hfm := filterMap_normGrade_congr h
  have hug : userGrades g = userGrades g' := by
    rw [userGrades_eq_filterMap, userGrades_eq_filterMap, hfm]
  constructor
  · rw [filterCoursesLocally_eq_filter, filterCoursesLocally_eq_filter]
    apply List.filter_congr
    intro c _
    have h3 : gradeMatchB { f with grade := g } c = gradeMatchB { f with grade := g' } c := by
      show (if g.isEmpty then true
            else (userGrades g).any fun gr => (c.grade.getD []).contains gr)
          = (if g'.isEmpty then true
            else (userGrades g').any fun gr => (c.grade.getD []).contains gr)
      rw [hie, hug]
    show (subjectsMatchB { f with grade := g } c && difficultyMatchB { f with grade := g } c
          && gradeMatchB { f with grade := g } c)
        = (subjectsMatchB { f with grade := g' } c && difficultyMatchB { f with grade := g' } c
          && gradeMatchB { f with grade := g' } c)
    rw [h3]
    rfl
  · unfold convertFiltersToApiParams
    simp only
    rw [hie, gradeLoop_congr h]

theorem grade_forms_interchangeable_witness :
    filterCoursesLocally [⟨none, none, none, some [9]⟩] { grade := [GVal.str "9"] }
      = filterCoursesLocally [⟨none, none, none, some [9]⟩] { grade := [GVal.int 9] }
    ∧ convertFiltersToApiParams { grade := [GVal.str "9"] }
      = convertFiltersToApiParams { grade := [GVal.int 9] } :=
  grade_forms_interchangeable {} [⟨none, none, none, some [9]⟩]
    [GVal.str "9"] [GVal.int 9]
    (List.forall₂_cons.mpr ⟨by decide, List.Forall₂.nil⟩)

/-- C2: `filter_courses` never raises: it is a total function into lists,
returning `fallback(filter_bag)` whenever the remote client is unavailable
or the fetch fails with an APIError or any other exception, and the locally
filtered fetch result otherwise. -/
theorem filter_courses_never_raises (svc : CourseService) (f : FilterBag) :
    (svc.api_client = none → filter_courses svc f = getFallbackCourses svc f)
    ∧ (∀ client, svc.api_client = some client →
        (∀ e, fetchCourses client f = Except.error e →
          filter_courses svc f = getFallbackCourses svc f)
        ∧ (∀ cs, fetchCourses client f = Except.ok cs →
          filter_courses svc f = filterCoursesLocally cs f)) := by
  refine ⟨?_, ?_⟩
  · intro h
    simp [filter_courses, h]
  · intro client hc
    refine ⟨?_, ?_⟩
    · intro e he
      simp [filter_courses, hc, he]
    · intro cs hcs
      simp [filter_courses, hc, hcs]

theorem filter_courses_never_raises_witness :
    filter_courses
        ⟨some ⟨fun _ => Except.error PyErr.apiError, Except.error PyErr.apiError⟩,
          some [⟨some 1, none, none, none⟩]⟩ {}
      = getFallbackCourses
          ⟨some ⟨fun _ => Except.error PyErr.apiError, Except.error PyErr.apiError⟩,
            some [⟨some 1, none, none, none⟩]⟩ {} :=
  ((filter_courses_never_raises _ {}).2
    ⟨fun _ => Except.error PyErr.apiError, Except.error PyErr.apiError⟩ rfl).1
    PyErr.apiError rfl

/-- C3: in Degraded mode (remote client unavailable) `filter_courses`
returns the static fallback dataset filtered by the local evaluator (the
empty list when the dataset is unavailable); in particular with filter bag
`{"grade": {"9"}}` it returns exactly the fallback records whose grade list
contains 9. -/
theorem degraded_mode_fallback (svc : CourseService) (f : FilterBag)
    (h : svc.api_client = none) :
    filter_courses svc f = getFallbackCourses svc f
    ∧ (svc.mock_courses = none → filter_courses svc f = [])
    ∧ (∀ d, svc.mock_courses = some d → filter_courses svc f = filterCoursesLocally d f)
    ∧ (∀ d, svc.mock_courses = some d → f = { grade := [GVal.str "9"] } →
        filter_courses svc f = d.filter (fun c => (c.grade.getD []).contains (9 : Int))) := by
  have hbase : filter_courses svc f = getFallbackCourses svc f := by
    simp [filter_courses, h]
  refine ⟨hbase, ?_, ?_, ?_⟩
  · intro hm
    rw [hbase]
    simp [getFallbackCourses, hm]
  · intro d hm
    rw [hbase]
    simp [getFallbackCourses, hm]
  · intro d hm hf
    rw [hbase]
    simp only [getFallbackCourses, hm]
    rw [filterCoursesLocally_eq_filter, hf]
    apply List.filter_congr
    intro c _
    have h9 : userGrades [GVal.str "9"] = [9] := by decide
    simp [keepCourse, subjectsMatchB, difficultyMatchB, gradeMatchB, h9]

theorem degraded_mode_fallback_witness :
    filter_courses
        ⟨none, some [⟨some 1, none, none, some [9]⟩, ⟨some 2, none, none, some [7]⟩]⟩
        { grade := [GVal.str "9"] }
      = [⟨some 1, none, none, some [9]⟩, ⟨some 2, none, none, some [7]⟩].filter
          (fun c => (c.grade.getD []).contains (9 : Int)) :=
  ((degraded_mode_fallback
      ⟨none, some [⟨some 1, none, none, some [9]⟩, ⟨some 2, none, none, some [7]⟩]⟩
      { grade := [GVal.str "9"] } rfl).2.2.2)
    [⟨some 1, none, none, some [9]⟩, ⟨some 2, none, none, some [7]⟩] rfl rfl

/-- C5: `get_course_by_id` returns `none` when the remote client is
unavailable (no fallback lookup); otherwise it fetches the full course list
and returns the first record whose id field equals the argument, `none`
when no record matches, and `none` on any exception during the fetch. -/
theorem get_course_by_id_spec (svc : CourseService) (cid : Int) :
    (svc.api_client = none → get_course_by_id svc cid = none)
    ∧ (∀ client, svc.api_client = some client →
        (∀ e, client.get_all_courses = Except.error e → get_course_by_id svc cid = none)
        ∧ (∀ cs, client.get_all_courses = Except.ok cs →
          get_course_by_id svc cid = cs.find? (fun c => c.id == some cid))) := by
  refine ⟨?_, ?_⟩
  · intro h
    simp [get_course_by_id, h]
  · intro client hc
    refine ⟨?_, ?_⟩
    · intro e he
      simp [get_course_by_id, hc, he]
    · intro cs hcs
      simp [get_course_by_id, hc, hcs, findCourseById_eq_find]

theorem get_course_by_id_spec_witness :
    get_course_by_id
        ⟨some ⟨fun _ => Except.error PyErr.apiError,
          Except.ok [⟨some 1, none, none, none⟩, ⟨some 2, none, none, none⟩]⟩, none⟩ 2
      = [(⟨some 1, none, none, none⟩ : Course), ⟨some 2, none, none, none⟩].find?
          (fun c => c.id == some (2 : Int)) :=
  ((get_course_by_id_spec
      ⟨some ⟨fun _ => Except.error PyErr.apiError,
        Except.ok [⟨some 1, none, none, none⟩, ⟨some 2, none, none, none⟩]⟩, none⟩ 2).2
    ⟨fun _ => Except.error PyErr.apiError,
      Except.ok [⟨some 1, none, none, none⟩, ⟨some 2, none, none, none⟩]⟩ rfl).2
    [⟨some 1, none, none, none⟩, ⟨some 2, none, none, none⟩] rfl

/-- C8: neither translation nor evaluation mutates the filter bag — the
state-threading embeddings hand back the bag they were given, unchanged —
and evaluation passes the surviving candidate records through unchanged (the
output is a sublist of the input). -/
theorem no_mutation_frame (f : FilterBag) (cs : List Course) :
    (convertFiltersToApiParamsS f).2 = f
    ∧ (convertFiltersToApiParamsS f).1 = convertFiltersToApiParams f
    ∧ (filterCoursesLocallyS cs f).2 = f
    ∧ (filterCoursesLocallyS cs f).1 = filterCoursesLocally cs f
    ∧ (filterCoursesLocally cs f).Sublist cs := by
  refine ⟨by rw [convertS_eq], by rw [convertS_eq], by rw [filterLocallyS_eq],
    by rw [filterLocallyS_eq], ?_⟩
  rw [filterCoursesLocally_eq_filter]
  exact List.filter_sublist cs

theorem no_mutation_frame_witness :
    (convertFiltersToApiParamsS { subjects := ["Наука"] }).2
      = { subjects := ["Наука"] } :=
  (no_mutation_frame { subjects := ["Наука"] } []).1

end CourseServiceProof
